import Mathlib

/-!
Shallow embedding of `src/main.py` (a single-instance Telegram bot built on
an asyncio event loop).  The filesystem is modelled at the level of the one
durable artifact the program manipulates: the PID lock file
`bot_session.lock`.  Liveness of a process id (`os.kill(pid, 0)`) is an
oracle passed in as a function.  Transport behaviour (the python-telegram-bot
SDK calls inside `start`) is modelled by an outcome parameter, since the SDK
is an external collaborator.
-/

/-- State of the lock file `bot_session.lock`:
absent, present but unreadable (opening or reading raises `OSError`),
or present with readable text content. -/
inductive LockFile where
  | absent : LockFile
  | unreadable : LockFile
  | content : String → LockFile
deriving DecidableEq, Repr

/-- Whitespace test used by Python's `str.strip`. -/
def isPySpace (c : Char) : Bool := c.isWhitespace

/-- Python's `str.strip()`: drop whitespace from both ends. -/
def pyStrip (s : String) : String :=
  ⟨(((s.data.dropWhile isPySpace).reverse.dropWhile isPySpace).reverse : List Char)⟩

/-- Value of a list of decimal digit characters, most significant first,
starting from accumulator `v` (the fold Python's `int` performs). -/
def digitsVal (v : Nat) (l : List Char) : Nat :=
  l.foldl (fun a c => a * 10 + (c.toNat - 48)) v

/-- Python's `int(s)` on a stripped string, restricted to the plain decimal
forms the program can encounter: optional sign followed by one or more
digits; anything else raises `ValueError` (here: `none`). -/
def pyInt (s : String) : Option Int :=
  match s.data with
  | [] => none
  | c :: rest =>
    if c = '-' then
      if rest ≠ [] ∧ rest.all Char.isDigit then some (-(digitsVal 0 rest : Int)) else none
    else if c = '+' then
      if rest ≠ [] ∧ rest.all Char.isDigit then some ((digitsVal 0 rest : Int)) else none
    else
      if (c :: rest).all Char.isDigit then some ((digitsVal 0 (c :: rest) : Int)) else none

/-- Decimal digits of `n`, most significant first, prepended to `acc`. -/
def decCharsAux : Nat → List Char → List Char
  | 0, acc => acc
  | n + 1, acc =>
      decCharsAux ((n + 1) / 10) (Nat.digitChar ((n + 1) % 10) :: acc)
decreasing_by exact Nat.div_lt_self (Nat.succ_pos n) (by norm_num)

/-- Python's `str` on a nonnegative integer: its decimal rendering. -/
def pyStr (n : Nat) : String :=
  if n = 0 then "0" else ⟨decCharsAux n []⟩

namespace TelegramBot

/-- `TelegramBot.check_existing_session` (src/main.py lines 47-67).
Returns the boolean result together with the lock file afterwards.
`alive pid` models `os.kill(pid, 0)` succeeding; when it is false the probe
raises `OSError` ("no such process").  An unreadable file (`OSError` on
read) and a malformed id (`ValueError` from `int`) both land in the outer
`except` clause: warn, delete the file, return `False`. -/
def check_existing_session (alive : Int → Bool) : LockFile → Bool × LockFile
  | .absent => (false, .absent)
  | .unreadable => (false, .absent)
  | .content s =>
    match pyInt (pyStrip s) with
    | none => (false, .absent)
    | some pid =>
      if alive pid then (true, .content s) else (false, .absent)

/-- `TelegramBot.create_session_file` (lines 69-72): write `str(os.getpid())`
to the lock file, overwriting whatever was there. -/
def create_session_file (selfPid : Nat) (_ : LockFile) : LockFile :=
  .content (pyStr selfPid)

/-- `TelegramBot.remove_session_file` (lines 74-77): delete the lock file if
it exists; no error when it is absent. -/
def remove_session_file : LockFile → LockFile
  | _ => .absent

/-- The read-back of the lock file performed by `check_existing_session`
(lines 51-52): `int(f.read().strip())`, `none` when that raises. -/
def readPid : LockFile → Option Int
  | .content s => pyInt (pyStrip s)
  | _ => none

/-- Outcome of the SDK transport calls inside `start` (builder, webhook
deletion, `initialize`/`start`/`start_polling`): all succeed, raise
`telegram.error.Conflict`, or raise some other exception. -/
inductive TransportResult where
  | ok : TransportResult
  | conflict : TransportResult
  | err : TransportResult
deriving DecidableEq, Repr

/-- Result of `TelegramBot.start`: the returned boolean, the lock file
afterwards, and whether `self.application` was assigned. -/
structure StartResult where
  ok : Bool
  lock : LockFile
  appSet : Bool
deriving DecidableEq, Repr

/-- `TelegramBot.start` (lines 79-132).  If another session is detected the
method returns `False` at once (application never built).  Otherwise it
creates the session file and runs the transport; `Conflict` and any other
exception are caught, the session file removed, and `False` returned; on
success the method blocks on `shutdown_event` and finally returns `True`. -/
def start (alive : Int → Bool) (selfPid : Nat) (transport : TransportResult)
    (lock : LockFile) : StartResult :=
  let chk := check_existing_session alive lock
  if chk.1 then
    { ok := false, lock := chk.2, appSet := false }
  else
    let lock2 := create_session_file selfPid chk.2
    match transport with
    | .ok => { ok := true, lock := lock2, appSet := true }
    | .conflict => { ok := false, lock := remove_session_file lock2, appSet := true }
    | .err => { ok := false, lock := remove_session_file lock2, appSet := true }

/-- Observable steps of the shutdown path of `TelegramBot.stop`. -/
inductive Event where
  | shutdownEventSet : Event
  | transportStopAttempted : Event
  | stopErrorLogged : Event
  | transportStopped : Event
  | lockFileReleased : Event
deriving DecidableEq, Repr

/-- Result of `TelegramBot.stop`: the event trace, the lock file afterwards,
and whether an exception escaped the method. -/
structure StopResult where
  events : List Event
  lock : LockFile
  raised : Bool
deriving DecidableEq, Repr

/-- `TelegramBot.stop` (lines 134-152): set `shutdown_event`; if
`self.application` is set, stop updater/application/shutdown inside a
`try`, logging (not re-raising) any exception; finally remove the session
file unconditionally.  `appSet` models `self.application` being non-`None`,
`stopRaises` models the awaited stop calls raising. -/
def stop (appSet : Bool) (stopRaises : Bool) (lock : LockFile) : StopResult :=
  let tEvents :=
    if appSet then
      if stopRaises then
        [Event.transportStopAttempted, Event.stopErrorLogged]
      else
        [Event.transportStopAttempted, Event.transportStopped]
    else []
  { events := Event.shutdownEventSet :: tEvents ++ [Event.lockFileReleased]
    lock := remove_session_file lock
    raised := false }

/-- `TelegramBot.start_command` (lines 155-156): fixed greeting reply. -/
def start_command : String :=
  "مرحباً! أنا بوت تيليجرام الجديد. كيف يمكنني مساعدتك؟"

/-- `TelegramBot.handle_message` (lines 158-161): echo template applied to
the message text. -/
def handle_message (text : String) : String :=
  "لقد تلقيت رسالتك: " ++ text

/-- Fixed apology string of `TelegramBot.error_handler` (lines 170-172). -/
def apology : String :=
  "عذراً، حدث خطأ أثناء معالجة طلبك. يرجى المحاولة مرة أخرى لاحقاً."

/-- Result of `TelegramBot.error_handler`: the reply sent (if any) and
whether an exception escaped the handler. -/
structure ErrorHandlerResult where
  sent : Option String
  raised : Bool
deriving DecidableEq, Repr

/-- `TelegramBot.error_handler` (lines 163-174): log the error; if the
update has an effective message, try to send the apology; a failure of that
send is logged and swallowed. -/
def error_handler (hasEffectiveMessage : Bool) (sendFails : Bool) :
    ErrorHandlerResult :=
  if hasEffectiveMessage then
    if sendFails then { sent := none, raised := false }
    else { sent := some apology, raised := false }
  else { sent := none, raised := false }

end TelegramBot

/-- `main` (src/main.py lines 194-211): build the bot, register signal
handlers, `await bot.start()` (its boolean result is discarded), and in the
`finally` clause `await bot.stop()`.  Returns the discarded start result
and the lock file once `main` has completed. -/
def mainRun (alive : Int → Bool) (selfPid : Nat)
    (transport : TelegramBot.TransportResult) (stopRaises : Bool)
    (lock : LockFile) : Bool × LockFile :=
  let s := TelegramBot.start alive selfPid transport lock
  let r := TelegramBot.stop s.appSet stopRaises s.lock
  (s.ok, r.lock)

/-- The whole process (module top level, lines 32-38, plus the
`__main__` block, lines 214-232): `BOT_TOKEN = os.getenv("BOT_TOKEN", "")`
is empty when the variable is missing or empty, and then `sys.exit(1)` runs
before any lock or transport code.  Otherwise `main` runs to completion on
the event loop; every exception in the `__main__` block is caught and
logged, so the interpreter exits 0.  Returns (exit code, lock file). -/
def processExit (token : String) (alive : Int → Bool) (selfPid : Nat)
    (transport : TelegramBot.TransportResult) (stopRaises : Bool)
    (lock : LockFile) : Nat × LockFile :=
  if token = "" then (1, lock)
  else
    let r := mainRun alive selfPid transport stopRaises lock
    (0, r.2)

/-- Number of decimal digits that `decCharsAux` prepends for `n`. -/
def digitCount : Nat → Nat
  | 0 => 0
  | n + 1 => digitCount ((n + 1) / 10) + 1
decreasing_by exact Nat.div_lt_self (Nat.succ_pos n) (by norm_num)

lemma digitChar_isDigit {d : Nat} (h : d < 10) :
    (Nat.digitChar d).isDigit = true := by
  interval_cases d <;> decide

lemma digitChar_val {d : Nat} (h : d < 10) :
    (Nat.digitChar d).toNat - 48 = d := by
  interval_cases d <;> decide

lemma isPySpace_of_isDigit {c : Char} (h : c.isDigit = true) :
    isPySpace c = false := by
  cases ht : isPySpace c
  · rfl
  · exfalso
    unfold isPySpace Char.isWhitespace at ht
    simp only [Bool.or_eq_true, decide_eq_true_eq] at ht
    rcases ht with ((h1 | h1) | h1) | h1 <;> subst h1 <;>
      exact absurd h (by decide)

lemma digitsVal_nil (v : Nat) : digitsVal v [] = v := rfl

lemma digitsVal_cons (v : Nat) (c : Char) (l : List Char) :
    digitsVal v (c :: l) = digitsVal (v * 10 + (c.toNat - 48)) l := rfl

lemma digitsVal_decCharsAux :
    ∀ (n : Nat) (acc : List Char) (v : Nat),
      digitsVal v (decCharsAux n acc) =
        digitsVal (v * 10 ^ digitCount n + n) acc := by
  intro n
  induction n using Nat.strong_induction_on with
  | _ n ih =>
    match n with
    | 0 =>
      intro acc v
      simp [decCharsAux, digitCount]
    | m + 1 =>
      intro acc v
      rw [decCharsAux]
      rw [ih ((m + 1) / 10) (Nat.div_lt_self (Nat.succ_pos m) (by norm_num))]
      rw [digitsVal_cons]
      congr 1
      rw [digitChar_val (Nat.mod_lt _ (by norm_num))]
      have hd : (m + 1) / 10 * 10 + (m + 1) % 10 = m + 1 := by omega
      have hc : digitCount (m + 1) = digitCount ((m + 1) / 10) + 1 := by
        rw [digitCount]
      rw [hc, pow_succ]
      calc (v * 10 ^ digitCount ((m + 1) / 10) + (m + 1) / 10) * 10 + (m + 1) % 10
          = v * (10 ^ digitCount ((m + 1) / 10) * 10) +
              ((m + 1) / 10 * 10 + (m + 1) % 10) := by ring
        _ = v * (10 ^ digitCount ((m + 1) / 10) * 10) + (m + 1) := by rw [hd]

lemma decCharsAux_all_digits :
    ∀ (n : Nat) (acc : List Char), acc.all Char.isDigit = true →
      (decCharsAux n acc).all Char.isDigit = true := by
  intro n
  induction n using Nat.strong_induction_on with
  | _ n ih =>
    match n with
    | 0 =>
      intro acc h
      simpa [decCharsAux] using h
    | m + 1 =>
      intro acc h
      rw [decCharsAux]
      exact ih ((m + 1) / 10) (Nat.div_lt_self (Nat.succ_pos m) (by norm_num)) _
        (by simp [List.all_cons, h, digitChar_isDigit (Nat.mod_lt _ (by norm_num))])

lemma decCharsAux_suffix :
    ∀ (n : Nat) (acc : List Char), ∃ pre, decCharsAux n acc = pre ++ acc := by
  intro n
  induction n using Nat.strong_induction_on with
  | _ n ih =>
    match n with
    | 0 =>
      intro acc
      exact ⟨[], by simp [decCharsAux]⟩
    | m + 1 =>
      intro acc
      rw [decCharsAux]
      obtain ⟨pre, hpre⟩ :=
        ih ((m + 1) / 10) (Nat.div_lt_self (Nat.succ_pos m) (by norm_num))
          (Nat.digitChar ((m + 1) % 10) :: acc)
      exact ⟨pre ++ [Nat.digitChar ((m + 1) % 10)], by simp [hpre]⟩

lemma decCharsAux_ne_nil (m : Nat) : decCharsAux (m + 1) [] ≠ [] := by
  rw [decCharsAux]
  obtain ⟨pre, hpre⟩ :=
    decCharsAux_suffix ((m + 1) / 10) [Nat.digitChar ((m + 1) % 10)]
  rw [hpre]
  simp

lemma dropWhile_isPySpace_of_digits {l : List Char}
    (h : l.all Char.isDigit = true) : l.dropWhile isPySpace = l := by
  cases l with
  | nil => rfl
  | cons c t =>
    rw [List.dropWhile_cons]
    rw [List.all_cons, Bool.and_eq_true] at h
    simp [isPySpace_of_isDigit h.1]

lemma pyStrip_of_digits {l : List Char} (h : l.all Char.isDigit = true) :
    pyStrip ⟨l⟩ = ⟨l⟩ := by
  unfold pyStrip
  have h2 : (String.mk l).data = l := rfl
  rw [h2, dropWhile_isPySpace_of_digits h,
    dropWhile_isPySpace_of_digits (by simpa using h), List.reverse_reverse]

lemma pyInt_of_digits {l : List Char} (hne : l ≠ [])
    (h : l.all Char.isDigit = true) :
    pyInt ⟨l⟩ = some ((digitsVal 0 l : Nat) : Int) := by
  cases l with
  | nil => exact absurd rfl hne
  | cons c t =>
    have hc : c.isDigit = true := by
      rw [List.all_cons, Bool.and_eq_true] at h
      exact h.1
    have hminus : ¬(c = '-') := by
      intro hcm; subst hcm; exact absurd hc (by decide)
    have hplus : ¬(c = '+') := by
      intro hcp; subst hcp; exact absurd hc (by decide)
    show pyInt ⟨c :: t⟩ = some ((digitsVal 0 (c :: t) : Nat) : Int)
    unfold pyInt
    simp only [if_neg hminus, if_neg hplus, if_pos h]

lemma pyInt_pyStrip_pyStr (n : Nat) :
    pyInt (pyStrip (pyStr n)) = some (n : Int) := by
  match n with
  | 0 => decide
  | m + 1 =>
    have hne : pyStr (m + 1) = (⟨decCharsAux (m + 1) []⟩ : String) := by
      unfold pyStr
      simp
    have hd : (decCharsAux (m + 1) []).all Char.isDigit = true :=
      decCharsAux_all_digits (m + 1) [] rfl
    rw [hne, pyStrip_of_digits hd, pyInt_of_digits (decCharsAux_ne_nil m) hd]
    congr 1
    have := digitsVal_decCharsAux (m + 1) [] 0
    rw [digitsVal_nil] at this
    simp only [this, Nat.zero_mul, Nat.zero_add]

/-- Claim C1: the spec says a failing invocation (lock held by a live
process) never touches the lock file, which should still hold the original
owner's pid after the failing invocation completes its shutdown path.  The
code violates this: `TelegramBot.start` alone indeed leaves the file
untouched, but `main`'s `finally` clause calls `stop()`, which removes the
lock file unconditionally, so after the failed invocation completes the
other process's lock file is gone. -/
theorem claim_C1_failing_invocation_deletes_lock :
    TelegramBot.check_existing_session (fun _ => true) (.content "1000") =
      (true, .content "1000") ∧
    TelegramBot.start (fun _ => true) 2000 .ok (.content "1000") =
      { ok := false, lock := .content "1000", appSet := false } ∧
    mainRun (fun _ => true) 2000 .ok false (.content "1000") =
      (false, .absent) := by
  decide

/-- Claim C2: the spec says the exit code is 0 exactly on clean shutdown and
non-zero on unrecoverable startup failure (lock held, or auth/connection
failure including Conflict).  The code violates this: `main` discards
`bot.start()`'s boolean result and the `__main__` block catches every
exception, so the process exits 0 on lock contention and on transport
Conflict/err just as on clean shutdown; only the missing-token path exits
non-zero (1). -/
theorem claim_C2_exit_code_zero_on_startup_failure :
    (processExit "token-A" (fun _ => true) 2000 .ok false
      (.content "1000")).1 = 0 ∧
    (processExit "token-A" (fun _ => false) 2000 .conflict false .absent).1
      = 0 ∧
    (processExit "token-A" (fun _ => false) 2000 .err false .absent).1 = 0 ∧
    (processExit "token-A" (fun _ => false) 2000 .ok false .absent).1 = 0 ∧
    (processExit "" (fun _ => true) 2000 .ok false .absent).1 = 1 := by
  decide

/-- Claim C3: if the lock file exists but stores a process id that is not
alive (the liveness probe raises "no such process"), acquisition succeeds:
the stale file is deleted, the contention check reports no other session,
and startup proceeds, replacing the file with a new lock record containing
the current process's id. -/
theorem claim_C3_stale_lock_reclaimed (alive : Int → Bool) (s : String)
    (pid : Int) (selfPid : Nat)
    (hread : TelegramBot.readPid (.content s) = some pid)
    (hdead : alive pid = false) :
    TelegramBot.check_existing_session alive (.content s) =
      (false, .absent) ∧
    TelegramBot.start alive selfPid .ok (.content s) =
      { ok := true, lock := .content (pyStr selfPid), appSet := true } := by
  have hpi : pyInt (pyStrip s) = some pid := hread
  constructor
  · simp [TelegramBot.check_existing_session, hpi, hdead]
  · simp [TelegramBot.start, TelegramBot.check_existing_session, hpi, hdead,
      TelegramBot.create_session_file]

/-- Concrete instance of claim C3: stale lock "1000" with no live process,
reclaimed by a new process with pid 2000. -/
theorem claim_C3_witness :
    TelegramBot.check_existing_session (fun _ => false) (.content "1000") =
      (false, .absent) ∧
    TelegramBot.start (fun _ => false) 2000 .ok (.content "1000") =
      { ok := true, lock := .content (pyStr 2000), appSet := true } :=
  claim_C3_stale_lock_reclaimed (fun _ => false) "1000" 1000 2000
    (by decide) rfl

/-- Claim C4: calling `stop()` before `start()` completes (application not
yet assigned), or twice in succession, never raises; afterwards the
shutdown event is set and no lock file is present; and
`remove_session_file` is idempotent, deleting the file if present and doing
nothing without error if absent. -/
theorem claim_C4_stop_before_start_and_twice (appSet stopRaises
    appSet2 stopRaises2 : Bool) (lock : LockFile) :
    (TelegramBot.stop appSet stopRaises lock).raised = false ∧
    (TelegramBot.stop appSet stopRaises lock).lock = .absent ∧
    (TelegramBot.stop appSet2 stopRaises2
      (TelegramBot.stop appSet stopRaises lock).lock).raised = false ∧
    (TelegramBot.stop appSet2 stopRaises2
      (TelegramBot.stop appSet stopRaises lock).lock).lock = .absent ∧
    (TelegramBot.stop appSet stopRaises lock).events.head? =
      some .shutdownEventSet ∧
    (∀ l, TelegramBot.remove_session_file
      (TelegramBot.remove_session_file l) =
        TelegramBot.remove_session_file l) ∧
    TelegramBot.remove_session_file .absent = .absent :=
  ⟨rfl, rfl, rfl, rfl, rfl, fun _ => rfl, rfl⟩

/-- Claim C5: during shutdown the transport stop is attempted strictly
before the lock file is released (the release is the final event of the
trace), the release happens even when stopping the transport raises
(`stopRaises` arbitrary), and no exception escapes `stop`. -/
theorem claim_C5_stop_ordering (appSet stopRaises : Bool)
    (lock : LockFile) :
    (∃ pre, (TelegramBot.stop appSet stopRaises lock).events =
      pre ++ [TelegramBot.Event.lockFileReleased]) ∧
    (∃ pre, (TelegramBot.stop true stopRaises lock).events =
      pre ++ [TelegramBot.Event.lockFileReleased] ∧
      TelegramBot.Event.transportStopAttempted ∈ pre) ∧
    (TelegramBot.stop appSet stopRaises lock).lock = .absent ∧
    (TelegramBot.stop appSet stopRaises lock).raised = false := by
  refine ⟨?_, ?_, rfl, rfl⟩
  · cases appSet <;> cases stopRaises <;> exact ⟨_, rfl⟩
  · cases stopRaises
    · exact ⟨[.shutdownEventSet, .transportStopAttempted,
        .transportStopped], rfl, by simp⟩
    · exact ⟨[.shutdownEventSet, .transportStopAttempted,
        .stopErrorLogged], rfl, by simp⟩

/-- Claim C6: when the token environment variable is absent or empty
(`os.getenv` yields `""` in both cases), the process exits with code 1
before any lock or transport activity, and the lock file is left exactly as
it was — in particular none is created. -/
theorem claim_C6_missing_token (alive : Int → Bool) (selfPid : Nat)
    (transport : TelegramBot.TransportResult) (stopRaises : Bool)
    (lock : LockFile) :
    processExit "" alive selfPid transport stopRaises lock = (1, lock) ∧
    processExit "" alive selfPid transport stopRaises .absent =
      (1, .absent) :=
  ⟨rfl, rfl⟩

/-- Claim C7: if the lock file is unreadable (`OSError` on read) or holds a
malformed, non-integer id (`ValueError` from `int`), acquisition deletes
the file, reports no contention, and a start creates a fresh lock record
for the current process and proceeds. -/
theorem claim_C7_malformed_lock_recovered (alive : Int → Bool)
    (selfPid : Nat) (s : String) (hmal : pyInt (pyStrip s) = none) :
    TelegramBot.check_existing_session alive .unreadable =
      (false, .absent) ∧
    TelegramBot.check_existing_session alive (.content s) =
      (false, .absent) ∧
    TelegramBot.start alive selfPid .ok .unreadable =
      { ok := true, lock := .content (pyStr selfPid), appSet := true } ∧
    TelegramBot.start alive selfPid .ok (.content s) =
      { ok := true, lock := .content (pyStr selfPid), appSet := true } := by
  refine ⟨rfl, ?_, ?_, ?_⟩
  · simp [TelegramBot.check_existing_session, hmal]
  · simp [TelegramBot.start, TelegramBot.check_existing_session,
      TelegramBot.create_session_file]
  · simp [TelegramBot.start, TelegramBot.check_existing_session, hmal,
      TelegramBot.create_session_file]

/-- Concrete instance of claim C7: a lock file holding "abc" is discarded
and replaced by a fresh record for pid 2000. -/
theorem claim_C7_witness :
    TelegramBot.check_existing_session (fun _ => true) .unreadable =
      (false, .absent) ∧
    TelegramBot.check_existing_session (fun _ => true) (.content "abc") =
      (false, .absent) ∧
    TelegramBot.start (fun _ => true) 2000 .ok .unreadable =
      { ok := true, lock := .content (pyStr 2000), appSet := true } ∧
    TelegramBot.start (fun _ => true) 2000 .ok (.content "abc") =
      { ok := true, lock := .content (pyStr 2000), appSet := true } :=
  claim_C7_malformed_lock_recovered (fun _ => true) 2000 "abc" (by decide)

/-- Claim C8: the "start" command reply is the fixed greeting string, the
reply to a non-command text `t` is the fixed echo template applied to `t`,
and on a handler error the error handler sends the fixed apology to the
originating conversation, never raising even when that send itself fails. -/
theorem claim_C8_handler_replies (t : String) (sendFails : Bool) :
    TelegramBot.start_command =
      "مرحباً! أنا بوت تيليجرام الجديد. كيف يمكنني مساعدتك؟" ∧
    TelegramBot.handle_message t = "لقد تلقيت رسالتك: " ++ t ∧
    (TelegramBot.error_handler true false).sent =
      some TelegramBot.apology ∧
    TelegramBot.apology =
      "عذراً، حدث خطأ أثناء معالجة طلبك. يرجى المحاولة مرة أخرى لاحقاً." ∧
    (TelegramBot.error_handler true sendFails).raised = false := by
  refine ⟨rfl, rfl, rfl, rfl, ?_⟩
  cases sendFails <;> rfl

/-- Claim C9: `stop()` removes the lock file unconditionally — it never
inspects the stored process id — so after `stop()` the lock file is absent
whatever its previous state, including a file with arbitrary content `s`
written by a different process. -/
theorem claim_C9_stop_unconditional_removal (appSet stopRaises : Bool)
    (lock : LockFile) (s : String) :
    (TelegramBot.stop appSet stopRaises lock).lock = .absent ∧
    (TelegramBot.stop appSet stopRaises (.content s)).lock = .absent :=
  ⟨rfl, rfl⟩

/-- Claim C10: lock-file creation and the liveness-check parse round-trip:
`create_session_file` writes exactly the decimal rendering of the current
process id, and reading it back the way `check_existing_session` does
(`int` of the stripped content) yields that same id. -/
theorem claim_C10_pid_round_trip (selfPid : Nat) (lock : LockFile) :
    TelegramBot.create_session_file selfPid lock =
      .content (pyStr selfPid) ∧
    TelegramBot.readPid (TelegramBot.create_session_file selfPid lock) =
      some (selfPid : Int) := by
  refine ⟨rfl, ?_⟩
  show pyInt (pyStrip (pyStr selfPid)) = some (selfPid : Int)
  exact pyInt_pyStrip_pyStr selfPid
